import Mathlib

/-!
Shallow embedding of the elvish-css widget runtime, for checking the
specification's claims about the style cache, fingerprinting, teardown,
prefetch scheduling, touch long-press handling, stuck detection and
capability degradation.

Each definition translates the corresponding JavaScript from the repository:
`src/elvish.js` (HathLayout, GantThalaLayout, GlanThollLayout, HimLayout),
`src/primitives/gil/gil.js` (ElvishGil), `src/global/touch.js` and the
unnamed i-thir element file.
-/

namespace Elvish

/-! Section: JavaScript value helpers -/

/-- The character class kept by `replace(/[^\w-]/g, '')`: ASCII letters,
digits, underscore and dash. -/
def isWordChar (c : Char) : Bool :=
  c.isAlpha || c.isDigit || c == '_' || c == '-'

/-- `s.replace(/[^\w-]/g, '')`: drop every character outside `[\w-]`. -/
def sanitize (s : String) : String :=
  String.mk (s.data.filter isWordChar)

/-- JS `attr || default` on a nullable string: `null` and `""` are falsy. -/
def jsOr : Option String → String → String
  | some s, d => if s = "" then d else s
  | none, d => d

/-- JS string interpolation of a possibly-`undefined` value: `undefined`
prints as the literal token `undefined`. -/
def jsStr : Option String → String
  | some s => s
  | none => "undefined"

/-- The whitespace characters relevant to JS `trim`. -/
def isSpaceChar (c : Char) : Bool :=
  c == ' ' || c == '\t' || c == '\n' || c == '\r'

/-- JS `String.prototype.trim`: strip whitespace from both ends. -/
def trimChars (cs : List Char) : List Char :=
  ((cs.dropWhile isSpaceChar).reverse.dropWhile isSpaceChar).reverse

/-- JS `s.split(sep)` for a one-character separator, over the character
list. -/
def splitOnChar (sep : Char) : List Char → List (List Char)
  | [] => [[]]
  | c :: cs =>
    let rest := splitOnChar sep cs
    if c == sep then [] :: rest
    else
      match rest with
      | r :: rs => (c :: r) :: rs
      | [] => [[c]]

/-- JS `parseInt(s, 10)`: skip leading whitespace, optional sign, then read
a decimal digit run; `NaN` (modelled as `none`) if no digit follows. -/
def parseIntJS (s : String) : Option Int :=
  let cs := s.data.dropWhile (fun c => c == ' ' || c == '\t' || c == '\n' || c == '\r')
  let signAndRest : Int × List Char :=
    match cs with
    | '-' :: r => (-1, r)
    | '+' :: r => (1, r)
    | r => (1, r)
  let ds := signAndRest.2.takeWhile Char.isDigit
  if ds.isEmpty then none
  else some (signAndRest.1 * (ds.foldl (fun a c => a * 10 + (c.toNat - '0'.toNat)) 0 : Nat))

/-- Does the pattern occur at the head of the character list? -/
def leadsWith : List Char → List Char → Bool
  | _, [] => true
  | [], _ :: _ => false
  | c :: cs, p :: ps => c == p && leadsWith cs ps

/-- Does the pattern occur anywhere in the character list? -/
def occursIn : List Char → List Char → Bool
  | [], p => p.isEmpty
  | c :: cs, p => leadsWith (c :: cs) p || occursIn cs p

/-- `s` contains `t` as a substring. -/
def hasSubstring (s t : String) : Bool :=
  occursIn s.data t.data

/-! Section: The global style registry

`document.head`'s style elements, as an ordered list of `(id, cssText)`
pairs; `document.getElementById` is a search by id and
`document.head.appendChild(styleEl)` appends at the end. -/

/-- `document.getElementById(id)` restricted to the style list: does a style
element with this id exist? -/
def getElementById (doc : List (String × String)) (id : String) : Bool :=
  doc.any (fun e => e.fst == id)

/-- Number of style elements carrying a given id. -/
def countId (doc : List (String × String)) (id : String) : Nat :=
  doc.countP (fun e => e.fst == id)

/-! Section: HathLayout (`i-hath`, src/elvish.js lines 521-603) -/

/-- The attribute state of an `i-hath` element: `space` and `split-after`
are nullable string attributes, `recursive` is a presence flag. -/
structure HathAttrs where
  space : Option String
  recursive : Bool
  splitAfter : Option String
deriving DecidableEq

/-- The resolved configuration used by `HathLayout.render`. `splitAfter`
fuses the getter (`val ? parseInt(val, 10) : null`) with the truthiness
test `render` applies: `null`, `NaN` and `0` are all falsy, so the
resolved value is `none` in each of those cases. -/
structure HathConfig where
  space : String
  recursive : Bool
  splitAfter : Option Int
deriving DecidableEq

/-- Resolve an `i-hath` attribute state into the configuration `render`
acts on: `space` defaults to `var(--s1)`, `recursive` is the flag, and
`split-after` goes through `parseInt` with all falsy outcomes collapsed. -/
def hathResolve (a : HathAttrs) : HathConfig :=
  { space := jsOr a.space "var(--s1)"
    recursive := a.recursive
    splitAfter :=
      match a.splitAfter with
      | none => none
      | some v =>
        if v = "" then none
        else
          match parseIntJS v with
          | none => none
          | some n => if n = 0 then none else some n }

/-- The fingerprint computed by `HathLayout.render`:
`` `Hath-${this.space}${recursive}${split}`.replace(/[^\w-]/g, '') ``. -/
def hathId (c : HathConfig) : String :=
  sanitize ("Hath-" ++ c.space
    ++ (if c.recursive then "-recursive" else "")
    ++ (match c.splitAfter with
        | some n => "-split" ++ toString n
        | none => ""))

/-- The CSS text `HathLayout.render` builds for a configuration. -/
def hathCss (c : HathConfig) : String :=
  let id := hathId c
  let selector := "[data-i=\"" ++ id ++ "\"]"
  let base :=
    if c.recursive then
      selector ++ " * + * \x7b margin-block-start: " ++ c.space ++ "; \x7d"
    else
      selector ++ " > * + * \x7b margin-block-start: " ++ c.space ++ "; \x7d"
  match c.splitAfter with
  | some n =>
      base ++ selector ++ " > :nth-child(" ++ toString n
        ++ ") \x7b margin-block-end: auto; \x7d"
  | none => base

/-- The style-registry effect of `HathLayout.render`: compute the id and, if
no style element with that id exists, append one; otherwise do nothing. -/
def hathRender (doc : List (String × String)) (c : HathConfig) : List (String × String) :=
  let id := hathId c
  if getElementById doc id then doc
  else doc ++ [(id, hathCss c)]

/-- `n` successive calls of the render path with the same resolved
configuration (e.g. `n` widget instances sharing one configuration). -/
def renderN : Nat → List (String × String) → HathConfig → List (String × String)
  | 0, doc, _ => doc
  | n + 1, doc, c => renderN n (hathRender doc c) c

/-! Section: GantThalaLayout (`i-gant-thala`, src/elvish.js lines 1405-1453) -/

/-- The CSS text `GantThalaLayout.render` builds from the `ratio`
attribute: `ratio.split(':')` destructured into `[n, d]` (so a missing
denominator is `undefined`), interpolated into the stylesheet. -/
def gantThalaCss (ratioAttr : Option String) : String :=
  let ratio := jsOr ratioAttr "16:9"
  let parts := (splitOnChar ':' ratio.data).map (fun cs => String.mk (trimChars cs))
  let n := jsStr (parts.get? 0)
  let d := jsStr (parts.get? 1)
  let id := sanitize ("GantThala-" ++ n ++ "-" ++ d)
  "\n        [data-i=\"" ++ id ++ "\"] \x7b\n          gant-thala-ratio: "
    ++ n ++ " / " ++ d ++ ";\n        \x7d\n      "

/-! Section: ElvishGil (`i-gil`, src/primitives/gil/gil.js) -/

/-- Which of the listeners registered by `ElvishGil.setupHoverPrefetch`
are currently attached to the element. -/
structure GilListeners where
  mouseenter : Bool
  mouseleave : Bool
  focus : Bool
  blur : Bool
  touchstart : Bool
deriving DecidableEq

/-- The teardown-relevant resources owned by one `i-gil` instance: the
listener set, the hover delay timer, the visibility observer established by
`setupVisiblePrefetch`, and the callback scheduled by `setupIdlePrefetch`
(`requestIdleCallback` or its `setTimeout` fallback, for which no handle is
kept). -/
structure GilState where
  listeners : GilListeners
  hoverTimerLive : Bool
  observerConnected : Bool
  idleCallbackPending : Bool
deriving DecidableEq

/-- `ElvishGil.setupHoverPrefetch` attaches the `mouseenter`, `mouseleave`,
`focus`, `blur` and `touchstart` listeners (and stores a `_cleanup` that
removes only the first four). -/
def setupHoverPrefetch (s : GilState) : GilState :=
  { s with listeners :=
      { mouseenter := true, mouseleave := true, focus := true,
        blur := true, touchstart := true } }

/-- `ElvishGil.setupIdlePrefetch` schedules an idle callback (or a 200 ms
fallback timeout); no handle is retained. -/
def setupIdlePrefetch (s : GilState) : GilState :=
  { s with idleCallbackPending := true }

/-- `ElvishGil.cleanup` (run by `disconnectedCallback`): clears the hover
timer, disconnects the observer, and runs `_cleanup`, which removes the
`mouseenter`/`mouseleave`/`focus`/`blur` listeners — but not the
`touchstart` listener, and nothing cancels a pending idle callback. -/
def gilCleanup (s : GilState) : GilState :=
  { s with
    hoverTimerLive := false
    observerConnected := false
    listeners :=
      { s.listeners with
        mouseenter := false, mouseleave := false, focus := false, blur := false } }

/-- A prefetch resource parsed from the `prefetch` attribute:
`{ type, value }` where `value` is `null` for the shorthand form. -/
structure Resource where
  type : String
  value : Option String
deriving DecidableEq

/-- The cache key built in `ElvishGil.doPrefetch`:
`` `${type}:${value || href}` `` (empty and `null` values fall back to the
element's `href`). -/
def resKey (href : String) (r : Resource) : String :=
  r.type ++ ":" ++ jsOr r.value href

/-- The observable outcome of `ElvishGil.doPrefetch` runs: the `prefetched`
set (insertion order), the keys for which an underlying fetch attempt was
started, and the keys whose attempt threw and was logged with
`console.warn`. -/
structure PrefetchResult where
  prefetched : List String
  attempts : List String
  warnings : List String
deriving DecidableEq

/-- One iteration of the `for (const { type, value } of resources)` loop in
`doPrefetch`: skip a key already in `prefetched`, otherwise add it (before
the attempt), attempt it, and on failure catch and log a warning — the key
stays in `prefetched` either way and the loop continues. `fails` says
whether the attempt for a key throws. -/
def prefetchStep (href : String) (fails : String → Bool)
    (st : PrefetchResult) (r : Resource) : PrefetchResult :=
  let key := resKey href r
  if key ∈ st.prefetched then st
  else
    let st' : PrefetchResult :=
      { prefetched := st.prefetched ++ [key]
        attempts := st.attempts ++ [key]
        warnings := st.warnings }
    if fails key then { st' with warnings := st'.warnings ++ [key] } else st'

/-- `ElvishGil.doPrefetch` over an already-parsed resource list. -/
def doPrefetch (href : String) (fails : String → Bool)
    (resources : List Resource) (st : PrefetchResult) : PrefetchResult :=
  resources.foldl (prefetchStep href fails) st

/-- A whole lifetime of prefetch triggers on one instance: each trigger runs
`doPrefetch` on its batch, starting from the constructor's empty set. -/
def runPrefetches (href : String) (fails : String → Bool)
    (batches : List (List Resource)) : PrefetchResult :=
  batches.foldl (fun st rs => doPrefetch href fails rs st) ⟨[], [], []⟩

/-! Section: HimLayout (`i-him`, src/elvish.js lines 1906-2056) -/

/-- Which observation primitives the environment offers. -/
structure Env where
  hasIntersectionObserver : Bool
  hasResizeObserver : Bool
  hasMutationObserver : Bool
deriving DecidableEq

/-- The sentinel-related resources owned by an `i-him` instance, plus the
frame callback `render` schedules with `requestAnimationFrame`. -/
structure HimState where
  sentinelAttr : Bool
  observerConnected : Bool
  sentinelAttached : Bool
  rafPending : Bool
deriving DecidableEq

/-- `HimLayout.cleanupSentinel`: disconnect and null the observer, remove
and null the sentinel node. The pending frame callback is untouched. -/
def cleanupSentinel (s : HimState) : HimState :=
  { s with observerConnected := false, sentinelAttached := false }

/-- `HimLayout.setupSentinel`: always clean up first; then, unless the
`sentinel` attribute is set and `IntersectionObserver` exists, stop; else
attach the sentinel and observe it. -/
def setupSentinel (env : Env) (s : HimState) : HimState :=
  let s := cleanupSentinel s
  if s.sentinelAttr && env.hasIntersectionObserver then
    { s with sentinelAttached := true, observerConnected := true }
  else s

/-- The sentinel-observation part of `HimLayout.render`: with the `sentinel`
attribute present it schedules `setupSentinel` on the next frame
(`requestAnimationFrame`, handle discarded); otherwise it cleans up. -/
def himRenderSentinelPart (s : HimState) : HimState :=
  if s.sentinelAttr then { s with rafPending := true }
  else cleanupSentinel s

/-- `HimLayout.disconnectedCallback` calls `cleanupSentinel` only. -/
def himDisconnected (s : HimState) : HimState :=
  cleanupSentinel s

/-- The notification stream of `setupSentinel`'s observer callback: for each
delivered entry it computes `isStuck = !entry.isIntersecting` and emits a
`stuck-change` notification carrying that boolean, unconditionally. -/
def stuckNotifications (entries : List Bool) : List Bool :=
  entries.map (fun isIntersecting => !isIntersecting)

/-- The notifications an `i-him` instance emits over a lifetime: they come
only from the observer, which exists only when setup actually connected
one. -/
def himStuckEvents (env : Env) (s : HimState) (entries : List Bool) : List Bool :=
  if (setupSentinel env s).observerConnected then stuckNotifications entries
  else []

/-! Section: GlanThollLayout (`i-glan-tholl`, src/elvish.js lines 1483-1608) -/

/-- The observer state of an `i-glan-tholl` instance plus its derived
overflow classification (the `overflowing` class). -/
structure GlanThollState where
  resizeObsConnected : Bool
  mutationObsConnected : Bool
  overflowing : Bool
deriving DecidableEq

/-- `GlanThollLayout.toggleOverflowClass`: set the `overflowing` class from
the comparison `scrollWidth > clientWidth`. -/
def toggleOverflowClass (scrollWidth clientWidth : Nat) (s : GlanThollState) :
    GlanThollState :=
  { s with overflowing := decide (clientWidth < scrollWidth) }

/-- `GlanThollLayout.setupObservers`: connect a ResizeObserver and a
MutationObserver when the environment has them, then run the initial
overflow check unconditionally. -/
def setupObservers (env : Env) (scrollWidth clientWidth : Nat) : GlanThollState :=
  toggleOverflowClass scrollWidth clientWidth
    { resizeObsConnected := env.hasResizeObserver
      mutationObsConnected := env.hasMutationObserver
      overflowing := false }

/-! Section: Touch long-press state machine (src/global/touch.js and the i-thir
element; both implementations share this structure) -/

/-- Per-element touch state: whether a press-confirmation timer is pending
(the one tracked in `touchTimers` / `_touchTimer`; `handleTouchStart`
always clears it before starting a new one, so one `Bool` suffices), how
many grace/decay deactivation timeouts are pending (these are anonymous
`setTimeout`s started by `handleTouchEnd` and tracked nowhere), and
whether the element is currently active (`activeElements` membership /
`_touchActive`). -/
structure TouchState where
  pressTimer : Bool
  graceTimers : Nat
  active : Bool
deriving DecidableEq

/-- The events driving the machine: the three touch events plus the firing
of a pending press-confirmation timer or of a pending grace timeout. -/
inductive TouchEvent where
  | start
  | finish
  | cancel
  | pressFire
  | graceFire
deriving DecidableEq

/-- One step of the touch handlers in src/global/touch.js:
`handleTouchStart` clears the tracked timer and starts a new long-press
timer; `handleTouchEnd` clears the tracked timer and, if the element is
active, starts an (untracked) grace timeout; `handleTouchCancel` clears
the tracked timer and deactivates; a firing press timer activates; a
firing grace timeout deactivates. -/
def touchStep (s : TouchState) : TouchEvent → TouchState
  | .start => { s with pressTimer := true }
  | .finish =>
      let s' := { s with pressTimer := false }
      if s'.active then { s' with graceTimers := s'.graceTimers + 1 } else s'
  | .cancel => { s with pressTimer := false, active := false }
  | .pressFire =>
      if s.pressTimer then { s with pressTimer := false, active := true } else s
  | .graceFire =>
      if 0 < s.graceTimers then
        { s with graceTimers := s.graceTimers - 1, active := false }
      else s

/-- Run a sequence of touch events from a state. -/
def touchRun (s : TouchState) (evs : List TouchEvent) : TouchState :=
  evs.foldl touchStep s

/-- How many timers are live for the element: the tracked press timer plus
every pending grace timeout. -/
def liveTimers (s : TouchState) : Nat :=
  (if s.pressTimer then 1 else 0) + s.graceTimers

/-! Section: DOM fragment model for `ElvishGil.connectedCallback` -/

/-- A DOM node: an element with a tag, an optional `href`, and children, or
a text node. -/
inductive Node where
  | elem (tag : String) (href : Option String) (children : List Node)
  | text (s : String)

mutual

/-- Is this node an `a` element or does it contain one? -/
def nodeHasAnchor : Node → Bool
  | .text _ => false
  | .elem tag _ children => tag == "a" || forestHasAnchor children

/-- `this.querySelector('a') !== null` over a child list: does any
descendant anchor exist? -/
def forestHasAnchor : List Node → Bool
  | [] => false
  | n :: rest => nodeHasAnchor n || forestHasAnchor rest

end

mutual

/-- No `a` element in this subtree contains another `a` element. -/
def nodeNoNestedAnchor : Node → Bool
  | .text _ => true
  | .elem tag _ children =>
      (!(tag == "a" && forestHasAnchor children)) && forestNoNestedAnchor children

/-- `nodeNoNestedAnchor` over a child list. -/
def forestNoNestedAnchor : List Node → Bool
  | [] => true
  | n :: rest => nodeNoNestedAnchor n && forestNoNestedAnchor rest

end

/-- The DOM restructuring in `ElvishGil.connectedCallback`: when the element
has no anchor descendant (`!this.anchor`), wrap the current children in a
new `a` element carrying `getAttribute('href') || '#'`; otherwise leave the
children untouched. -/
def gilConnect (hrefAttr : Option String) (children : List Node) : List Node :=
  if forestHasAnchor children then children
  else [Node.elem "a" (some (jsOr hrefAttr "#")) children]

/-! Section: Helper lemmas -/

theorem countId_append (doc l : List (String × String)) (id : String) :
    countId (doc ++ l) id = countId doc id + countId l id := by
  simp [countId, List.countP_append]

theorem countId_zero_not_found {doc : List (String × String)} {id : String}
    (h : countId doc id = 0) : getElementById doc id = false := by
  induction doc with
  | nil => rfl
  | cons e rest ih =>
    simp only [countId, List.countP_cons] at h ih
    simp only [getElementById, List.any_cons] at ih ⊢
    by_cases he : e.fst == id
    · simp [he] at h
    · simp only [he, Bool.false_or]
      exact ih (by omega)

theorem hathRender_already_present {doc : List (String × String)} {c : HathConfig}
    (h : getElementById doc (hathId c) = true) : hathRender doc c = doc := by
  simp [hathRender, h]

theorem hathRender_idem (doc : List (String × String)) (c : HathConfig) :
    hathRender (hathRender doc c) c = hathRender doc c := by
  by_cases h : getElementById doc (hathId c)
  · simp [hathRender, h]
  · simp only [hathRender, h, if_neg, Bool.not_eq_true, if_false]
    have : getElementById (doc ++ [(hathId c, hathCss c)]) (hathId c) = true := by
      simp [getElementById, List.any_append]
    simp [this]

theorem renderN_fixed {doc : List (String × String)} {c : HathConfig}
    (h : hathRender doc c = doc) : ∀ n, renderN n doc c = doc := by
  intro n
  induction n with
  | zero => rfl
  | succ m ih =>
    show renderN m (hathRender doc c) c = doc
    rw [h, ih]

/-! Section: Claim theorems -/

/-- Claim C1: the style-cache realize step is idempotent — if a style entry
for the fingerprint already exists, the render path inserts nothing; a
second render with the same fingerprint inserts nothing further; and from a
registry with no entry for the fingerprint, any number `n ≥ 1` of instances
rendering with identical resolved configuration produces exactly one
stylesheet entry for that fingerprint. -/
theorem style_cache_realize_idempotent (doc : List (String × String)) (c : HathConfig) :
    (getElementById doc (hathId c) = true → hathRender doc c = doc)
    ∧ hathRender (hathRender doc c) c = hathRender doc c
    ∧ (countId doc (hathId c) = 0 →
        ∀ n, 1 ≤ n → countId (renderN n doc c) (hathId c) = 1) := by
  refine ⟨fun h => hathRender_already_present h, hathRender_idem doc c, fun h0 n hn => ?_⟩
  obtain ⟨m, rfl⟩ : ∃ m, n = m + 1 := ⟨n - 1, by omega⟩
  show countId (renderN m (hathRender doc c) c) (hathId c) = 1
  rw [renderN_fixed (hathRender_idem doc c) m]
  have hfalse : getElementById doc (hathId c) = false := countId_zero_not_found h0
  simp only [hathRender, hfalse, Bool.false_eq_true, if_false]
  rw [countId_append, h0]
  simp [countId]

/-- Witness for C1 at a concrete registry and configuration. -/
theorem style_cache_realize_idempotent_witness :
    countId [] (hathId (hathResolve ⟨none, false, none⟩)) = 0
    ∧ countId (renderN 2 [] (hathResolve ⟨none, false, none⟩))
        (hathId (hathResolve ⟨none, false, none⟩)) = 1 :=
  ⟨by decide,
   (style_cache_realize_idempotent [] (hathResolve ⟨none, false, none⟩)).2.2
     (by decide) 2 (by decide)⟩

/-- Claim C2 counterexample: the resolved configurations with
`space="1.5rem"` and `space="15rem"` differ in a CSS-affecting option, yet
sanitization strips the dot, so both fingerprints are `Hath-15rem` — the
claimed injectivity fails. -/
theorem hath_fingerprint_collision :
    hathResolve ⟨some "1.5rem", false, none⟩ ≠ hathResolve ⟨some "15rem", false, none⟩
    ∧ hathId (hathResolve ⟨some "1.5rem", false, none⟩)
        = hathId (hathResolve ⟨some "15rem", false, none⟩) := by
  decide

/-- Claim C2 (amended): the fingerprint is a deterministic function of the
resolved configuration, so two instances with distinct fingerprints have
distinct configurations and get distinct cache entries; the converse
(injectivity) fails because sanitization can collapse two configurations
differing in an option, e.g. space `1.5rem` versus `15rem`. -/
theorem hath_fingerprint_deterministic (c1 c2 : HathConfig)
    (h : hathId c1 ≠ hathId c2) : c1 ≠ c2 :=
  fun he => h (he ▸ rfl)

/-- Witness for the amended C2 at concrete distinct fingerprints. -/
theorem hath_fingerprint_deterministic_witness :
    hathResolve ⟨some "a", false, none⟩ ≠ hathResolve ⟨some "b", false, none⟩ :=
  hath_fingerprint_deterministic _ _ (by decide)

/-- Claim C3 counterexample: after hover-prefetch setup, the i-gil cleanup
run by `disconnectedCallback` leaves the `touchstart` listener attached; the
sticky widget's teardown leaves the frame callback scheduled by `render`
pending; and a scheduled idle-prefetch callback survives cleanup — so
callbacks owned by a detached instance can still fire after teardown. -/
theorem teardown_cancellation_cex :
    (gilCleanup (setupHoverPrefetch
        ⟨⟨false, false, false, false, false⟩, false, false, false⟩)).listeners.touchstart = true
    ∧ (himDisconnected (himRenderSentinelPart ⟨true, false, false, false⟩)).rafPending = true
    ∧ (gilCleanup (setupIdlePrefetch
        ⟨⟨false, false, false, false, false⟩, false, false, false⟩)).idleCallbackPending = true := by
  decide

/-- Claim C3 (amended): detaching an i-gil instance synchronously cancels
its hover delay timer, disconnects its visibility observer, and removes the
`mouseenter`/`mouseleave`/`focus`/`blur` listeners before teardown returns,
and detaching an i-him instance disconnects its sentinel observer and
removes the sentinel; but the i-gil `touchstart` listener and pending idle
callback, and the i-him deferred frame callback, are not cancelled and can
fire after teardown. -/
theorem teardown_incomplete_cancellation (s : GilState) (h : HimState) :
    (gilCleanup s).hoverTimerLive = false
    ∧ (gilCleanup s).observerConnected = false
    ∧ (gilCleanup s).listeners.mouseenter = false
    ∧ (gilCleanup s).listeners.mouseleave = false
    ∧ (gilCleanup s).listeners.focus = false
    ∧ (gilCleanup s).listeners.blur = false
    ∧ (gilCleanup s).listeners.touchstart = s.listeners.touchstart
    ∧ (gilCleanup s).idleCallbackPending = s.idleCallbackPending
    ∧ (himDisconnected h).observerConnected = false
    ∧ (himDisconnected h).sentinelAttached = false
    ∧ (himDisconnected h).rafPending = h.rafPending :=
  ⟨rfl, rfl, rfl, rfl, rfl, rfl, rfl, rfl, rfl, rfl, rfl⟩

theorem prefetchStep_mono (href : String) (fails : String → Bool)
    (st : PrefetchResult) (r : Resource) :
    (∀ x ∈ st.prefetched, x ∈ (prefetchStep href fails st r).prefetched)
    ∧ (∀ x ∈ st.attempts, x ∈ (prefetchStep href fails st r).attempts)
    ∧ (∀ x ∈ st.warnings, x ∈ (prefetchStep href fails st r).warnings) := by
  unfold prefetchStep
  by_cases hm : resKey href r ∈ st.prefetched
  · simp [hm]
  · by_cases hf : fails (resKey href r)
    · simp only [if_neg hm, if_pos hf]
      exact ⟨fun x hx => List.mem_append_left _ hx,
        fun x hx => List.mem_append_left _ hx,
        fun x hx => List.mem_append_left _ hx⟩
    · simp only [if_neg hm, if_neg hf]
      exact ⟨fun x hx => List.mem_append_left _ hx,
        fun x hx => List.mem_append_left _ hx,
        fun x hx => hx⟩

theorem doPrefetch_mono (href : String) (fails : String → Bool)
    (resources : List Resource) (st : PrefetchResult) :
    (∀ x ∈ st.prefetched, x ∈ (doPrefetch href fails resources st).prefetched)
    ∧ (∀ x ∈ st.attempts, x ∈ (doPrefetch href fails resources st).attempts)
    ∧ (∀ x ∈ st.warnings, x ∈ (doPrefetch href fails resources st).warnings) := by
  induction resources generalizing st with
  | nil => exact ⟨fun _ hx => hx, fun _ hx => hx, fun _ hx => hx⟩
  | cons r rest ih =>
    refine ⟨fun x hx => ?_, fun x hx => ?_, fun x hx => ?_⟩
    · exact (ih (prefetchStep href fails st r)).1 x ((prefetchStep_mono href fails st r).1 x hx)
    · exact (ih (prefetchStep href fails st r)).2.1 x ((prefetchStep_mono href fails st r).2.1 x hx)
    · exact (ih (prefetchStep href fails st r)).2.2 x ((prefetchStep_mono href fails st r).2.2 x hx)

/-- The dedup invariant of `doPrefetch`: the `prefetched` set has no
duplicates, and every key occurs in `attempts` no more often than in
`prefetched`. -/
def PrefetchInv (st : PrefetchResult) : Prop :=
  st.prefetched.Nodup ∧ ∀ k : String, st.attempts.count k ≤ st.prefetched.count k

theorem prefetchStep_inv (href : String) (fails : String → Bool)
    (st : PrefetchResult) (r : Resource) (h : PrefetchInv st) :
    PrefetchInv (prefetchStep href fails st r) := by
  obtain ⟨hnd, hcnt⟩ := h
  unfold prefetchStep
  by_cases hm : resKey href r ∈ st.prefetched
  · simp only [if_pos hm]
    exact ⟨hnd, hcnt⟩
  · have hnd' : (st.prefetched ++ [resKey href r]).Nodup := by
      simp [List.nodup_append, hnd, hm]
    have hcnt' : ∀ k : String,
        (st.attempts ++ [resKey href r]).count k
          ≤ (st.prefetched ++ [resKey href r]).count k := by
      intro k
      simp only [List.count_append]
      exact Nat.add_le_add_right (hcnt k) _
    by_cases hf : fails (resKey href r)
    · simp only [if_neg hm, if_pos hf]
      exact ⟨hnd', hcnt'⟩
    · simp only [if_neg hm, if_neg hf]
      exact ⟨hnd', hcnt'⟩

theorem doPrefetch_inv (href : String) (fails : String → Bool)
    (resources : List Resource) (st : PrefetchResult) (h : PrefetchInv st) :
    PrefetchInv (doPrefetch href fails resources st) := by
  induction resources generalizing st with
  | nil => exact h
  | cons r rest ih => exact ih _ (prefetchStep_inv href fails st r h)

theorem foldl_batches_inv (href : String) (fails : String → Bool)
    (batches : List (List Resource)) :
    ∀ st, PrefetchInv st →
      PrefetchInv (batches.foldl (fun st rs => doPrefetch href fails rs st) st) := by
  induction batches with
  | nil => exact fun _ hst => hst
  | cons b rest ih => exact fun st hst => ih _ (doPrefetch_inv href fails b st hst)

theorem runPrefetches_inv (href : String) (fails : String → Bool)
    (batches : List (List Resource)) :
    PrefetchInv (runPrefetches href fails batches) :=
  foldl_batches_inv href fails batches ⟨[], [], []⟩
    ⟨List.nodup_nil, fun _ => Nat.le_refl _⟩

theorem foldl_batches_mono (href : String) (fails : String → Bool)
    (more : List (List Resource)) (st : PrefetchResult) :
    ∀ x ∈ st.prefetched,
      x ∈ (more.foldl (fun st rs => doPrefetch href fails rs st) st).prefetched := by
  induction more generalizing st with
  | nil => exact fun x hx => hx
  | cons b rest ih =>
    intro x hx
    exact ih _ x ((doPrefetch_mono href fails b st).1 x hx)

/-- Claim C5: per i-gil instance the set of requested `(type, key)` pairs
only grows over the instance's lifetime (running further trigger batches
preserves every recorded key), and across any sequence of prefetch
triggers each key is the subject of at most one underlying fetch attempt. -/
theorem prefetch_dedup_monotone (href : String) (fails : String → Bool)
    (batches : List (List Resource)) (key : String) :
    (runPrefetches href fails batches).attempts.count key ≤ 1
    ∧ (∀ (more : List (List Resource)) (x : String),
        x ∈ (runPrefetches href fails batches).prefetched →
        x ∈ (runPrefetches href fails (batches ++ more)).prefetched) := by
  obtain ⟨hnd, hcnt⟩ := runPrefetches_inv href fails batches
  refine ⟨Nat.le_trans (hcnt key) (List.nodup_iff_count_le_one.mp hnd key), ?_⟩
  intro more x hx
  unfold runPrefetches
  rw [List.foldl_append]
  exact foldl_batches_mono href fails more _ x hx

/-- Witness for C5: two rapid triggers for the same pair yield one attempt,
and the recorded key survives the second trigger. -/
theorem prefetch_dedup_monotone_witness :
    ((runPrefetches "h" (fun _ => false)
        [[⟨"html", none⟩], [⟨"html", none⟩]]).attempts.count "html:h" ≤ 1)
    ∧ "html:h" ∈ (runPrefetches "h" (fun _ => false)
        [[⟨"html", none⟩], [⟨"html", none⟩]]).prefetched :=
  ⟨(prefetch_dedup_monotone "h" (fun _ => false)
      [[⟨"html", none⟩], [⟨"html", none⟩]] "html:h").1,
   (prefetch_dedup_monotone "h" (fun _ => false)
      [[⟨"html", none⟩]] "html:h").2 [[⟨"html", none⟩]] "html:h" (by decide)⟩

/-- Claim C4 counterexample: with an attempt that throws, the failed pair
`html:h` is warned about but IS recorded in `prefetched` (the key is added
before the attempt and never removed on failure), and a later trigger for
the same pair performs no new attempt — contradicting the claim that a
failed pair is not recorded as attempted-and-skippable and is retried. -/
theorem prefetch_failure_marked_cex :
    (doPrefetch "h" (fun _ => true) [⟨"html", none⟩] ⟨[], [], []⟩).warnings = ["html:h"]
    ∧ (doPrefetch "h" (fun _ => true) [⟨"html", none⟩] ⟨[], [], []⟩).prefetched = ["html:h"]
    ∧ (doPrefetch "h" (fun _ => true) [⟨"html", none⟩]
        (doPrefetch "h" (fun _ => true) [⟨"html", none⟩] ⟨[], [], []⟩)).attempts
      = ["html:h"] := by
  decide

/-- Claim C4 (amended): a throwing prefetch attempt is caught and logged as
a warning and the remaining resource attempts in the same batch still
execute (every batch resource not yet recorded is attempted, and warned
about when it fails); but the failed pair IS recorded in `prefetched`
before the attempt and stays recorded, so a later trigger skips it rather
than retrying. -/
theorem prefetch_failure_handling (href : String) (fails : String → Bool)
    (resources : List Resource) (st : PrefetchResult) :
    (∀ r ∈ resources, resKey href r ∈ (doPrefetch href fails resources st).prefetched)
    ∧ (∀ r ∈ resources, resKey href r ∉ st.prefetched →
        resKey href r ∈ (doPrefetch href fails resources st).attempts
        ∧ (fails (resKey href r) = true →
            resKey href r ∈ (doPrefetch href fails resources st).warnings))
    ∧ (∀ key, key ∈ st.prefetched →
        (doPrefetch href fails resources st).attempts.count key
          = st.attempts.count key) := by
  induction resources generalizing st with
  | nil =>
    exact ⟨fun r hr => absurd hr (List.not_mem_nil r),
      fun r hr => absurd hr (List.not_mem_nil r), fun _ _ => rfl⟩
  | cons r0 rest ih =>
    have hstep : ∀ key, key ∈ st.prefetched →
        (prefetchStep href fails st r0).attempts.count key = st.attempts.count key
          ∧ key ∈ (prefetchStep href fails st r0).prefetched := by
      intro key hk
      unfold prefetchStep
      by_cases hm : resKey href r0 ∈ st.prefetched
      · simp [hm, hk]
      · have hne : resKey href r0 ≠ key := fun he => hm (he ▸ hk)
        by_cases hf : fails (resKey href r0) <;>
          simp [hm, hf, List.count_append, List.count_singleton, hk,
            List.mem_append, hne.symm]
    refine ⟨fun r hr => ?_, fun r hr hnot => ?_, fun key hk => ?_⟩
    · rcases List.mem_cons.mp hr with rfl | hr'
      · -- the head resource: its key is in prefetched after its own step
        have hkey : resKey href r ∈ (prefetchStep href fails st r).prefetched := by
          unfold prefetchStep
          by_cases hm : resKey href r ∈ st.prefetched
          · simp [hm]
          · by_cases hf : fails (resKey href r) <;> simp [hm, hf, List.mem_append]
        exact (doPrefetch_mono href fails rest _).1 _ hkey
      · exact (ih _).1 r hr'
    · rcases List.mem_cons.mp hr with rfl | hr'
      · have hml : resKey href r ∈ (prefetchStep href fails st r).attempts
            ∧ (fails (resKey href r) = true →
                resKey href r ∈ (prefetchStep href fails st r).warnings) := by
          unfold prefetchStep
          by_cases hf : fails (resKey href r) <;>
            simp [hnot, hf, List.mem_append]
        exact ⟨(doPrefetch_mono href fails rest _).2.1 _ hml.1,
          fun hf => (doPrefetch_mono href fails rest _).2.2 _ (hml.2 hf)⟩
      · by_cases hin : resKey href r ∈ (prefetchStep href fails st r0).prefetched
        · -- it was recorded by the head step, so the head step attempted it
          have heq : resKey href r = resKey href r0 := by
            unfold prefetchStep at hin
            by_cases hm : resKey href r0 ∈ st.prefetched
            · simp [hm] at hin
              exact absurd hin hnot
            · by_cases hf : fails (resKey href r0) <;>
                simp [hm, hf, List.mem_append] at hin <;>
                rcases hin with hin | hin <;> first | exact absurd hin hnot | exact hin
          have hml : resKey href r ∈ (prefetchStep href fails st r0).attempts
              ∧ (fails (resKey href r) = true →
                  resKey href r ∈ (prefetchStep href fails st r0).warnings) := by
            have hm0 : resKey href r0 ∉ st.prefetched := heq ▸ hnot
            unfold prefetchStep
            by_cases hf : fails (resKey href r0) <;>
              simp [hm0, hf, List.mem_append, heq]
          exact ⟨(doPrefetch_mono href fails rest _).2.1 _ hml.1,
            fun hf => (doPrefetch_mono href fails rest _).2.2 _ (hml.2 hf)⟩
        · exact (ih _).2.1 r hr' hin
    · have h1 := hstep key hk
      have h2 := (ih (prefetchStep href fails st r0)).2.2 key h1.2
      exact h2.trans h1.1

/-- Witness for the amended C4: the failing attempt for `html:h` is logged
as a warning. -/
theorem prefetch_failure_handling_witness :
    "html:h" ∈ (doPrefetch "h" (fun _ => true) [⟨"html", none⟩] ⟨[], [], []⟩).warnings :=
  ((prefetch_failure_handling "h" (fun _ => true) [⟨"html", none⟩] ⟨[], [], []⟩).2.1
    ⟨"html", none⟩ (List.mem_singleton.mpr rfl) (List.not_mem_nil _)).2 rfl

/-- Claim C6 counterexample: after touch-start, press-confirmation firing,
touch-end (which starts the untracked grace timeout) and a second
touch-start before the grace period elapses, the pending deactivation
timeout is still live and two timers are live at once — the second
touch-start cancels only the tracked press timer. -/
theorem touch_timer_invariant_cex :
    (touchRun ⟨false, 0, false⟩ [.start, .pressFire, .finish, .start]).graceTimers = 1
    ∧ liveTimers (touchRun ⟨false, 0, false⟩ [.start, .pressFire, .finish, .start]) = 2 := by
  decide

/-- Claim C6 (amended): a new touch-start always clears any previously
pending press-confirmation timer and starts a fresh one (so at most one
press-confirmation timer is live), but it leaves every pending grace/decay
timeout untouched: a second touch-start before the first interaction's
grace period elapses does not cancel the pending deactivation, which can
still fire and deactivate the restarted interaction. -/
theorem touch_start_clears_press_timer (s : TouchState) :
    touchStep s .start
      = { pressTimer := true, graceTimers := s.graceTimers, active := s.active }
    ∧ (0 < s.graceTimers → (touchStep (touchStep s .start) .graceFire).active = false) := by
  refine ⟨rfl, fun h => ?_⟩
  simp [touchStep, h]

/-- Witness for the amended C6 at a concrete state with a pending grace
timeout. -/
theorem touch_start_clears_press_timer_witness :
    (touchStep (touchStep ⟨false, 1, true⟩ .start) .graceFire).active = false :=
  (touch_start_clears_press_timer ⟨false, 1, true⟩).2 (by decide)

/-- Claim C7 counterexample: for sentinel visibility transitioning
false→true→false the observer callback emits one notification per entry,
negated — `[stuck=true, stuck=false, stuck=true]`, not the claimed
`[stuck=true, stuck=false]`. -/
theorem stuck_sequence_cex :
    stuckNotifications [false, true, false] ≠ [true, false]
    ∧ stuckNotifications [false, true, false] = [true, false, true] := by
  decide

/-- Claim C7 (amended): for sentinel visibility transitioning
false→true→false the emitted stuck-change notifications are exactly
`[stuck=true, stuck=false, stuck=true]`; when the delivered entries
alternate (as visibility threshold crossings do), two consecutive
notifications never carry the same boolean; and each notification's
boolean is the negation of the sentinel's visibility in its entry. -/
theorem stuck_notification_semantics :
    stuckNotifications [false, true, false] = [true, false, true]
    ∧ (∀ entries : List Bool, entries.Chain' (· ≠ ·) →
        (stuckNotifications entries).Chain' (· ≠ ·))
    ∧ (∀ (entries : List Bool) (i : Nat),
        (stuckNotifications entries)[i]? = entries[i]?.map (fun v => !v)) := by
  refine ⟨by decide, fun entries h => ?_, fun entries i => ?_⟩
  · rw [stuckNotifications, List.chain'_map]
    exact h.imp (fun a b hab he => hab (Bool.not_inj he))
  · simp [stuckNotifications]

/-- Witness for the amended C7 on a concrete alternating entry list. -/
theorem stuck_notification_semantics_witness :
    (stuckNotifications [false, true]).Chain' (· ≠ ·) :=
  stuck_notification_semantics.2.1 [false, true] (by simp)

/-- Claim C8 counterexample: GantThala with `ratio="4"` (no denominator)
puts the literal token `undefined` into the generated CSS instead of
falling back to the documented `16:9` default. -/
theorem numeric_fallback_cex :
    hasSubstring (gantThalaCss (some "4")) "undefined" = true
    ∧ gantThalaCss (some "4") ≠ gantThalaCss none := by
  decide

/-- Claim C8 (amended): the Hath `split-after` numeric option does fall
back when unparseable — `parseInt` yielding `NaN` resolves like an absent
attribute, the generated CSS is the no-split CSS and contains no `NaN`
token; but GantThala's `ratio` is split as raw strings, and a ratio
missing its denominator propagates the token `undefined` into the
generated CSS. -/
theorem numeric_option_fallback (a : HathAttrs) (v : String)
    (hv : a.splitAfter = some v) (hp : parseIntJS v = none) :
    hathResolve a = hathResolve { a with splitAfter := none }
    ∧ hathCss (hathResolve a) = hathCss (hathResolve { a with splitAfter := none })
    ∧ hasSubstring (hathCss (hathResolve ⟨none, false, some "abc"⟩)) "NaN" = false
    ∧ hasSubstring (gantThalaCss (some "4")) "undefined" = true := by
  have h1 : hathResolve a = hathResolve { a with splitAfter := none } := by
    simp [hathResolve, hv, hp]
  exact ⟨h1, by rw [h1], by decide, by decide⟩

/-- Witness for the amended C8 at the unparseable value `"abc"`. -/
theorem numeric_option_fallback_witness :
    hathResolve ⟨none, false, some "abc"⟩ = hathResolve ⟨none, false, none⟩ :=
  (numeric_option_fallback ⟨none, false, some "abc"⟩ "abc" rfl (by decide)).1

/-- Claim C9 counterexample: with neither ResizeObserver nor
MutationObserver available, setup still runs the initial synchronous
check, which classifies an already-overflowing container (scrollWidth 2,
clientWidth 1) as overflowing — not "always not-overflowing". -/
theorem capability_degradation_cex :
    (setupObservers ⟨false, false, false⟩ 2 1).resizeObsConnected = false
    ∧ (setupObservers ⟨false, false, false⟩ 2 1).mutationObsConnected = false
    ∧ (setupObservers ⟨false, false, false⟩ 2 1).overflowing = true := by
  decide

/-- Claim C9 (amended): without IntersectionObserver the stuck detector
connects no observer and never emits a stuck classification (the element
stays not-stuck), rather than failing; without ResizeObserver or
MutationObserver the overflow detector merely stops updating — its initial
synchronous classification still reflects the actual measurements at
setup, so an overflowing container is still classified as overflowing
once. -/
theorem capability_degradation (env : Env) (s : HimState)
    (entries : List Bool) (sw cw : Nat)
    (hno : env.hasIntersectionObserver = false) :
    himStuckEvents env s entries = []
    ∧ (setupSentinel env s).observerConnected = false
    ∧ (setupObservers env sw cw).overflowing = decide (cw < sw) := by
  have h2 : (setupSentinel env s).observerConnected = false := by
    simp [setupSentinel, cleanupSentinel, hno]
  refine ⟨?_, h2, rfl⟩
  simp [himStuckEvents, h2]

/-- Witness for the amended C9 in an environment without
IntersectionObserver. -/
theorem capability_degradation_witness :
    himStuckEvents ⟨false, true, true⟩ ⟨true, true, true, false⟩ [false, true, false] = [] :=
  (capability_degradation ⟨false, true, true⟩ ⟨true, true, true, false⟩
    [false, true, false] 2 1 rfl).1

theorem gilConnect_noop {hrefAttr : Option String} {children : List Node}
    (h : forestHasAnchor children = true) : gilConnect hrefAttr children = children := by
  simp [gilConnect, h]

/-- Claim C10: i-gil's connectedCallback wraps the element's current
children in a new anchor carrying the href exactly when no anchor
descendant exists yet; re-attaching an already-initialized instance
changes nothing, the operation is idempotent, and no attach sequence ever
produces nested anchors from nesting-free content. -/
theorem gil_connect_anchor (hrefAttr : Option String) (children : List Node) :
    (forestHasAnchor children = true → gilConnect hrefAttr children = children)
    ∧ (forestHasAnchor children = false →
        gilConnect hrefAttr children
          = [Node.elem "a" (some (jsOr hrefAttr "#")) children])
    ∧ forestHasAnchor (gilConnect hrefAttr children) = true
    ∧ gilConnect hrefAttr (gilConnect hrefAttr children) = gilConnect hrefAttr children
    ∧ (forestNoNestedAnchor children = true →
        forestNoNestedAnchor (gilConnect hrefAttr children) = true) := by
  by_cases h : forestHasAnchor children = true
  · have e : gilConnect hrefAttr children = children := gilConnect_noop h
    exact ⟨fun _ => e, fun hf => absurd h (by simp [hf]), by rw [e]; exact h,
      by rw [e, e], fun hn => by rw [e]; exact hn⟩
  · have h' : forestHasAnchor children = false := by
      simpa using h
    have e : gilConnect hrefAttr children
        = [Node.elem "a" (some (jsOr hrefAttr "#")) children] := by
      simp [gilConnect, h']
    have hfa : forestHasAnchor (gilConnect hrefAttr children) = true := by
      rw [e]
      simp [forestHasAnchor, nodeHasAnchor]
    exact ⟨fun ht => absurd ht (by simp [h']), fun _ => e, hfa, gilConnect_noop hfa,
      fun hn => by rw [e]; simp [forestNoNestedAnchor, nodeNoNestedAnchor, h', hn]⟩

/-- Witness for C10: an element whose content already holds an anchor is
untouched; anchor-free content is wrapped once and stays nesting-free. -/
theorem gil_connect_anchor_witness :
    gilConnect none [Node.elem "a" none []] = [Node.elem "a" none []]
    ∧ gilConnect none [Node.text "hi"] = [Node.elem "a" (some "#") [Node.text "hi"]]
    ∧ forestNoNestedAnchor (gilConnect none [Node.text "hi"]) = true :=
  ⟨(gil_connect_anchor none [Node.elem "a" none []]).1 rfl,
   (gil_connect_anchor none [Node.text "hi"]).2.1 rfl,
   (gil_connect_anchor none [Node.text "hi"]).2.2.2.2 rfl⟩

end Elvish
